import Mathlib

/-!
Verification development for the SQL Optimizer repository.

The repository consists of a React/TypeScript frontend (QueryInput,
OptimizationResults, types.ts) and a Python FastAPI backend exposing the
SQL Analysis and Optimization Suggestion Engine as `POST /analyze`.
The backend file (backend/app.py, class SQLAnalyzer) is not among the
available sources; only its documentation, its HTTP callers and the
frontend that renders its output are. Engine definitions below are
therefore modelled from the specification (marked in their doc comments),
while the frontend definitions are translated directly from the
TypeScript sources.
-/

namespace SqlOpt

/-- Severity of a suggestion; the literal union low | medium | high from
frontend/src/types.ts. -/
inductive Severity where
  | low
  | medium
  | high
deriving DecidableEq, Repr

/-- Category tag of a rule; the spec fixes the set
Performance/Index/Join/Structure (types.ts carries it as a string). -/
inductive Category where
  | performance
  | index
  | join
  | struct
deriving DecidableEq, Repr

/-- OptimizationSuggestion from frontend/src/types.ts: category tag,
severity, title, description, recommendation and optional example
(field named exampleText here because example is a Lean keyword). -/
structure OptimizationSuggestion where
  category : Category
  severity : Severity
  title : String
  description : String
  suggestion : String
  exampleText : Option String := none
deriving DecidableEq, Repr

/-- AnalysisResult from frontend/src/types.ts (the variant with
database_type and the optional syntax_errors field). -/
structure AnalysisResult where
  query : String
  database_type : String
  suggestions : List OptimizationSuggestion
  complexity_score : Int
  execution_plan_tips : List String
  syntax_errors : Option (List String) := none
deriving DecidableEq, Repr

/-- Request body of POST /analyze: interface SQLQuery from types.ts. -/
structure SQLQueryBody where
  query : String
  database_type : String
deriving DecidableEq, Repr

/-! ### Generic character-list helpers used by the shallow embedding -/

/-- Characters of a string literal. -/
def lit (s : String) : List Char := s.data

/-- Uppercased characters of the text with every whitespace character
normalized to a single space. -/
def normChars (s : String) : List Char :=
  s.data.map (fun c => if c.isWhitespace then ' ' else c.toUpper)

/-- Drop spaces from a character list. -/
def despace (l : List Char) : List Char := l.filter (fun c => c != ' ')

/-- Pad with one space on each side, so word-bounded keyword patterns of
the form " KW " also match at the ends of the text. -/
def padded (l : List Char) : List Char := ' ' :: (l ++ [' '])

/-- Does the first list occur at the head of the second? -/
def prefAt : List Char → List Char → Bool
  | [], _ => true
  | _ :: _, [] => false
  | p :: ps, c :: cs => p == c && prefAt ps cs

/-- Index of the first occurrence of a pattern in a character list. -/
def findPat : List Char → List Char → Option Nat
  | [], _ => none
  | c :: cs, pat =>
      if prefAt pat (c :: cs) then some 0 else (findPat cs pat).map (· + 1)

/-- Does the pattern occur anywhere in the list? -/
def hasPat (s pat : List Char) : Bool := (findPat s pat).isSome

/-- Number of (possibly overlapping) occurrences of a pattern. -/
def countPat : List Char → List Char → Nat
  | [], _ => 0
  | c :: cs, pat => (if prefAt pat (c :: cs) then 1 else 0) + countPat cs pat

/-- Minimum of two optional indices, treating none as infinity. -/
def minOpt : Option Nat → Option Nat → Option Nat
  | none, b => b
  | some a, none => some a
  | some a, some b => some (min a b)

/-- Earliest occurrence of any of the given patterns. -/
def firstKw (l : List Char) (pats : List (List Char)) : Option Nat :=
  pats.foldl (fun acc p => minOpt acc (findPat l p)) none

/-- Kernel-friendly whitespace trim, the embedding of the String.trim or
JavaScript trim used by the sources. -/
def trimStr (s : String) : String :=
  String.mk (((s.data.dropWhile Char.isWhitespace).reverse.dropWhile
    Char.isWhitespace).reverse)

/-! ### Tokenizer / statement builder (engine, modelled from the spec) -/

/-- Modelled from the spec (backend SQLAnalyzer is missing from the
sources): mask every character that lies inside a single-quoted string
literal or inside parentheses, so that keyword searches on the result see
only top-level keywords (section 4.1 and the design note in section 9:
a tolerant top-level keyword scanner tracking nesting depth and string
state; comment handling is folded into the same heuristic). -/
def maskAux : List Char → Nat → Bool → List Char
  | [], _, _ => []
  | c :: cs, depth, inStr =>
      if inStr then ' ' :: maskAux cs depth (c != '\'')
      else if c == '\'' then ' ' :: maskAux cs depth true
      else if c == '(' then ' ' :: maskAux cs (depth + 1) false
      else if c == ')' then ' ' :: maskAux cs (depth - 1) false
      else if depth == 0 then c :: maskAux cs 0 false
      else ' ' :: maskAux cs depth false

/-- Modelled from the spec: the masked, normalized, space-padded view of
the text in which top-level clause keywords are located. -/
def topLevelView (text : String) : List Char :=
  padded (maskAux (normChars text) 0 false)

/-- Modelled from the spec: first word of the statement, used for the
leading-keyword check of section 4.1. -/
def firstWord (s : String) : String :=
  String.mk (((normChars s).dropWhile (fun c => c == ' ')).takeWhile
    (fun c => c != ' '))

/-- Modelled from the spec: statement-leading keywords the lightweight
tokenizer accepts; anything else is an unparseable leading keyword. -/
def validLeadingKeywords : List String :=
  ["SELECT", "INSERT", "UPDATE", "DELETE", "WITH", "CREATE", "ALTER",
   "DROP", "TRUNCATE", "EXPLAIN", "MERGE"]

/-- Modelled from the spec: parenthesis balance check that ignores
parentheses inside string literals (section 4.1: unbalanced parentheses
are a detected structural defect). -/
def parensBalanced : List Char → Nat → Bool → Bool
  | [], d, _ => d == 0
  | c :: cs, d, inStr =>
      if inStr then parensBalanced cs d (c != '\'')
      else if c == '\'' then parensBalanced cs d true
      else if c == '(' then parensBalanced cs (d + 1) false
      else if c == ')' then (d != 0) && parensBalanced cs (d - 1) false
      else parensBalanced cs d false

/-- Modelled from the spec: the tokenizer error pass of section 4.1 —
an unrecognized leading keyword and unbalanced parentheses each yield one
human-readable SyntaxError; a clean text yields the empty list. -/
def checkSyntax (text : String) : List String :=
  (if validLeadingKeywords.contains (firstWord text) then []
   else ["Unrecognized SQL statement keyword: " ++ firstWord text]) ++
  (if parensBalanced (normChars text) 0 false then []
   else ["Unbalanced parentheses in query"])

/-- Modelled from the spec: StatementFragments of section 3 — the light
structural view of one statement (select list, FROM text, join data,
WHERE text, clause presence flags). -/
structure StatementFragments where
  selectList : String
  fromText : Option String
  fromCommaCount : Nat
  joinCount : Nat
  hasJoinCondition : Bool
  whereText : Option String
  hasGroupBy : Bool
  hasHaving : Bool
  hasOrderBy : Bool
  hasLimit : Bool
deriving DecidableEq, Repr

/-- Modelled from the spec: clause terminators that may follow a WHERE
clause at top level. -/
def whereStops : List (List Char) :=
  [lit " GROUP BY ", lit " HAVING ", lit " ORDER BY ", lit " LIMIT ",
   lit " FETCH ", lit " OFFSET ", lit " UNION "]

/-- Modelled from the spec: clause terminators that may follow the FROM
chain at top level. -/
def fromStops : List (List Char) := lit " WHERE " :: whereStops

/-- Modelled from the spec: the masked region between a top-level keyword
and the next top-level stop keyword. -/
def maskedClause (pm : List Char) (kw : List Char)
    (stops : List (List Char)) : Option (List Char) :=
  match findPat pm kw with
  | none => none
  | some i =>
      let rest := pm.drop (i + kw.length)
      some (rest.take ((firstKw rest stops).getD rest.length))

/-- Modelled from the spec: the raw (normalized, unmasked) text of the
clause that starts after a top-level keyword and ends at the next
top-level stop keyword, trimmed. -/
def clauseAfter (pm pn : List Char) (kw : List Char)
    (stops : List (List Char)) : Option String :=
  match findPat pm kw with
  | none => none
  | some i =>
      let rest := pm.drop (i + kw.length)
      let rawRest := pn.drop (i + kw.length)
      some (trimStr (String.mk
        (rawRest.take ((firstKw rest stops).getD rest.length))))

/-- Modelled from the spec: the statement builder of section 4.1 —
case-insensitive, best-effort top-level clause splitting into a
StatementFragments value. -/
def buildFragments (text : String) : StatementFragments :=
  let n := normChars text
  let pm := padded (maskAux n 0 false)
  let pn := padded n
  { selectList := (clauseAfter pm pn (lit " SELECT ") [lit " FROM "]).getD ""
    fromText := clauseAfter pm pn (lit " FROM ") fromStops
    fromCommaCount :=
      countPat ((maskedClause pm (lit " FROM ") fromStops).getD []) (lit ",")
    joinCount := countPat pm (lit " JOIN ")
    hasJoinCondition := hasPat pm (lit " ON ") || hasPat pm (lit " USING ")
    whereText := clauseAfter pm pn (lit " WHERE ") whereStops
    hasGroupBy := hasPat pm (lit " GROUP BY ")
    hasHaving := hasPat pm (lit " HAVING ")
    hasOrderBy := hasPat pm (lit " ORDER BY ")
    hasLimit := hasPat pm (lit " LIMIT ") || hasPat pm (lit " TOP ") ||
      hasPat pm (lit " ROWNUM ") || hasPat pm (lit " FETCH ") }

/-! ### Rule catalog (engine, modelled from the spec, section 4.2) -/

/-- Modelled from the spec: scalar function names the engine recognizes
for non-SARGable detection and function counting. -/
def sqlScalarFunctions : List String :=
  ["UPPER", "LOWER", "SUBSTRING", "CAST", "CONVERT", "TRIM", "COALESCE",
   "CONCAT", "LENGTH", "YEAR", "MONTH", "DAY", "DATE", "ROUND", "ABS",
   "COUNT", "SUM", "AVG", "MIN", "MAX", "GROUP_CONCAT"]

/-- Modelled from the spec: aggregate function names, used by the
redundant-distinct rule. -/
def aggregateFunctions : List String := ["COUNT", "SUM", "AVG", "MIN", "MAX"]

/-- Modelled from the spec: does a clause text apply a known function
directly before a parenthesis (the function-on-column heuristic)? -/
def textHasFunction (w : String) : Bool :=
  sqlScalarFunctions.any (fun f => hasPat (despace (normChars w)) (lit (f ++ "(")))

/-- Modelled from the spec: the select-star rule suggestion value
(Performance, Medium). -/
def selectStarSuggestion : OptimizationSuggestion :=
  { category := .performance, severity := .medium,
    title := "Avoid SELECT *",
    description := "Using SELECT * retrieves all columns and can hurt performance",
    suggestion := "Specify only the columns you need",
    exampleText := some "SELECT id, name, email FROM users" }

/-- Modelled from the spec: the missing-filter rule suggestion value
(Performance, High). -/
def missingWhereSuggestion : OptimizationSuggestion :=
  { category := .performance, severity := .high,
    title := "Missing WHERE clause",
    description := "Queries without WHERE clauses can cause full table scans",
    suggestion := "Add a WHERE clause to filter the rows you need" }

/-- Modelled from the spec: the missing-bound rule suggestion value
(Performance, Medium). -/
def missingLimitSuggestion : OptimizationSuggestion :=
  { category := .performance, severity := .medium,
    title := "Missing LIMIT clause",
    description := "Unbounded result sets can be very large",
    suggestion := "Add a LIMIT or equivalent row bound" }

/-- Modelled from the spec: the redundant-distinct rule suggestion value
(Performance, Low). -/
def redundantDistinctSuggestion : OptimizationSuggestion :=
  { category := .performance, severity := .low,
    title := "Possibly unnecessary DISTINCT",
    description := "DISTINCT adds a sort or hash step that may be avoidable",
    suggestion := "Remove DISTINCT if the rows are already unique" }

/-- Modelled from the spec: the non-SARGable-predicate rule suggestion
value (Index, High). -/
def nonSargableSuggestion : OptimizationSuggestion :=
  { category := .index, severity := .high,
    title := "Non-SARGable condition",
    description := "Applying a function to a column in WHERE prevents index usage",
    suggestion := "Rewrite the predicate so the bare column is compared",
    exampleText := some "WHERE name = UPPER(search_value)" }

/-- Modelled from the spec: the leading-wildcard rule suggestion value
(Index, Medium). -/
def leadingWildcardSuggestion : OptimizationSuggestion :=
  { category := .index, severity := .medium,
    title := "Leading wildcard in LIKE",
    description := "A LIKE pattern starting with a wildcard cannot use an index",
    suggestion := "Avoid patterns that begin with a wildcard character" }

/-- Modelled from the spec: the filter-column index hint suggestion value
(Index, Medium). -/
def whereColumnIndexSuggestion : OptimizationSuggestion :=
  { category := .index, severity := .medium,
    title := "Index WHERE columns",
    description := "Columns referenced in WHERE benefit from an index",
    suggestion := "Ensure the filtered columns are indexed" }

/-- Modelled from the spec: the sort-column index hint suggestion value
(Index, Low). -/
def sortIndexSuggestion : OptimizationSuggestion :=
  { category := .index, severity := .low,
    title := "Index ORDER BY columns",
    description := "Sorting without an index requires an explicit sort step",
    suggestion := "Consider an index covering the ORDER BY columns" }

/-- Modelled from the spec: the implicit-join rule suggestion value
(Join, Medium). -/
def implicitJoinSuggestion : OptimizationSuggestion :=
  { category := .join, severity := .medium,
    title := "Implicit JOIN syntax",
    description := "Comma-separated tables in FROM use old-style implicit joins",
    suggestion := "Use explicit JOIN ... ON syntax",
    exampleText := some "FROM users u JOIN orders o ON u.id = o.user_id" }

/-- Modelled from the spec: the missing-join-condition rule suggestion
value (Join, High). -/
def missingJoinConditionSuggestion : OptimizationSuggestion :=
  { category := .join, severity := .high,
    title := "Missing JOIN condition",
    description := "A JOIN without ON or USING produces a cartesian product",
    suggestion := "Add an ON or USING condition to every JOIN" }

/-- Modelled from the spec: the subquery-to-join rule suggestion value
(Join, Medium). -/
def subqueryToJoinSuggestion : OptimizationSuggestion :=
  { category := .join, severity := .medium,
    title := "Subquery could be a JOIN",
    description := "IN (SELECT ...) subqueries are often faster as joins",
    suggestion := "Rewrite the IN subquery as a JOIN",
    exampleText := some "JOIN orders o ON o.user_id = users.id" }

/-- Modelled from the spec: select-star rule — select list exactly *. -/
def checkSelectStar (fr : StatementFragments) : List OptimizationSuggestion :=
  if fr.selectList == "*" then [selectStarSuggestion] else []

/-- Modelled from the spec: missing-filter rule — no WHERE clause. -/
def checkMissingWhere (fr : StatementFragments) : List OptimizationSuggestion :=
  if fr.whereText.isNone then [missingWhereSuggestion] else []

/-- Modelled from the spec: missing-bound rule — no LIMIT-equivalent. -/
def checkMissingLimit (fr : StatementFragments) : List OptimizationSuggestion :=
  if fr.hasLimit then [] else [missingLimitSuggestion]

/-- Modelled from the spec: redundant-distinct rule — DISTINCT with no
JOIN and no aggregate function. -/
def checkRedundantDistinct (fr : StatementFragments) (text : String) :
    List OptimizationSuggestion :=
  if hasPat (padded (normChars text)) (lit " DISTINCT ") &&
     fr.joinCount == 0 &&
     !(aggregateFunctions.any (fun f =>
        hasPat (despace (normChars text)) (lit (f ++ "(")))) then
    [redundantDistinctSuggestion]
  else []

/-- Modelled from the spec: non-SARGable rule — a function applied inside
the WHERE predicate. -/
def checkNonSargable (fr : StatementFragments) : List OptimizationSuggestion :=
  match fr.whereText with
  | some w => if textHasFunction w then [nonSargableSuggestion] else []
  | none => []

/-- Modelled from the spec: leading-wildcard rule — a LIKE pattern in
WHERE beginning with a wildcard. -/
def checkLeadingWildcard (fr : StatementFragments) : List OptimizationSuggestion :=
  match fr.whereText with
  | some w =>
      if hasPat (despace (normChars w)) (lit "LIKE'%") then
        [leadingWildcardSuggestion]
      else []
  | none => []

/-- Modelled from the spec: filter-column index hint — WHERE references
columns not already flagged by the other Index rules. -/
def checkWhereColumnIndex (fr : StatementFragments) : List OptimizationSuggestion :=
  match fr.whereText with
  | some w =>
      if textHasFunction w || hasPat (despace (normChars w)) (lit "LIKE'%") then []
      else [whereColumnIndexSuggestion]
  | none => []

/-- Modelled from the spec: sort-column index hint — ORDER BY present. -/
def checkSortIndex (fr : StatementFragments) : List OptimizationSuggestion :=
  if fr.hasOrderBy then [sortIndexSuggestion] else []

/-- Modelled from the spec: implicit-join rule — comma-separated table
list at the top level of FROM. -/
def checkImplicitJoin (fr : StatementFragments) : List OptimizationSuggestion :=
  if fr.fromCommaCount != 0 then [implicitJoinSuggestion] else []

/-- Modelled from the spec: missing-join-condition rule — an explicit
JOIN without any ON or USING. -/
def checkMissingJoinCondition (fr : StatementFragments) :
    List OptimizationSuggestion :=
  if fr.joinCount != 0 && !fr.hasJoinCondition then
    [missingJoinConditionSuggestion]
  else []

/-- Modelled from the spec: subquery-to-join rule — WHERE contains an
IN (SELECT ...) pattern. -/
def checkSubqueryToJoin (fr : StatementFragments) : List OptimizationSuggestion :=
  match fr.whereText with
  | some w =>
      if hasPat (despace (normChars w)) (lit "IN(SELECT") then
        [subqueryToJoinSuggestion]
      else []
  | none => []

/-- Modelled from the spec: the rule catalog run in its fixed declared
order — Performance rules, then Index, then Join (section 4.2). -/
def runRules (fr : StatementFragments) (text : String) :
    List OptimizationSuggestion :=
  checkSelectStar fr ++ checkMissingWhere fr ++ checkMissingLimit fr ++
  checkRedundantDistinct fr text ++
  checkNonSargable fr ++ checkLeadingWildcard fr ++
  checkWhereColumnIndex fr ++ checkSortIndex fr ++
  checkImplicitJoin fr ++ checkMissingJoinCondition fr ++
  checkSubqueryToJoin fr

/-! ### Complexity scorer (engine, modelled from the spec, section 4.3) -/

/-- Modelled from the spec: number of JOIN keywords in the token
stream. -/
def joinCountTok (text : String) : Nat :=
  countPat (padded (normChars text)) (lit " JOIN ")

/-- Modelled from the spec: number of subqueries, counted as opening
parentheses immediately followed by SELECT. -/
def subqueryCount (text : String) : Nat :=
  countPat (despace (normChars text)) (lit "(SELECT")

/-- Modelled from the spec: number of UNION keywords. -/
def unionCount (text : String) : Nat :=
  countPat (padded (normChars text)) (lit " UNION ")

/-- Modelled from the spec: number of CASE expressions. -/
def caseCount (text : String) : Nat :=
  countPat (padded (normChars text)) (lit " CASE ")

/-- Modelled from the spec: number of scalar function invocations. -/
def functionCount (text : String) : Nat :=
  (sqlScalarFunctions.map (fun f =>
    countPat (despace (normChars text)) (lit (f ++ "(")))).sum

/-- Modelled from the spec: the per-occurrence weight accumulation of
section 4.3 — the scorer starts at 0 and adds each weight in turn: +2
per JOIN, +3 per subquery, +2 per UNION, +1 per CASE, +1 for GROUP BY
presence, +1 for ORDER BY presence, +2 for HAVING presence, +1 per
scalar function invocation. -/
def scoreWeights (fr : StatementFragments) (text : String) : List Int :=
  List.replicate (joinCountTok text) 2 ++
  List.replicate (subqueryCount text) 3 ++
  List.replicate (unionCount text) 2 ++
  List.replicate (caseCount text) 1 ++
  (if fr.hasGroupBy then [1] else []) ++
  (if fr.hasOrderBy then [1] else []) ++
  (if fr.hasHaving then [2] else []) ++
  List.replicate (functionCount text) 1

/-- Modelled from the spec: the complexity score — the accumulated weight
sum clamped to the closed interval [0, 100]. -/
def complexityScore (fr : StatementFragments) (text : String) : Int :=
  min 100 (max 0 (scoreWeights fr text).sum)

/-! ### Dialect tip generator (engine, modelled from the spec, 4.4) -/

/-- Modelled from the spec: structural tips derived from the statement
fragments, independent of dialect. -/
def baseTips (fr : StatementFragments) : List String :=
  (if fr.whereText.isSome then
     ["Ensure WHERE clause columns have appropriate indexes"] else []) ++
  (if fr.hasOrderBy then
     ["Consider an index covering the ORDER BY columns"] else []) ++
  (if fr.joinCount != 0 then
     ["Verify join columns are indexed on both tables"] else [])

/-- Modelled from the spec: dialect-flavored execution-plan tips with a
generic fallback for unrecognized dialect tags (section 4.4). -/
def dialectTips (dialect : String) : List String :=
  if dialect == "mysql" then
    ["Use EXPLAIN to inspect the MySQL query plan",
     "Use LIMIT for pagination"]
  else if dialect == "postgresql" then
    ["Use EXPLAIN ANALYZE to inspect the PostgreSQL query plan",
     "Use LIMIT with OFFSET or keyset pagination"]
  else if dialect == "oracle" then
    ["Use EXPLAIN PLAN to inspect the Oracle execution plan",
     "Use ROWNUM or FETCH FIRST to bound result sets"]
  else if dialect == "sqlserver" then
    ["Review the actual execution plan in SQL Server tools",
     "Use TOP or OFFSET FETCH to bound result sets"]
  else
    ["Review the query execution plan with your database tools"]

/-- Modelled from the spec: the ordered tip sequence returned with a
successful analysis. -/
def executionPlanTips (dialect : String) (fr : StatementFragments) :
    List String :=
  baseTips fr ++ dialectTips dialect

/-! ### Analysis orchestrator (engine, modelled from the spec, 4.5) -/

/-- Modelled from the spec: the analyze entry point of sections 4.5 and 6
(the backend POST /analyze handler, absent from the sources). Tokenize;
on syntax errors short-circuit with those errors, no suggestions, score
0 and no tips; otherwise run the rule catalog, the scorer and the tip
generator and assemble the full AnalysisResult. -/
def analyze (text dialect : String) : AnalysisResult :=
  if (checkSyntax text).isEmpty then
    { query := text
      database_type := dialect
      suggestions := runRules (buildFragments text) text
      complexity_score := complexityScore (buildFragments text) text
      execution_plan_tips := executionPlanTips dialect (buildFragments text)
      syntax_errors := none }
  else
    { query := text
      database_type := dialect
      suggestions := []
      complexity_score := 0
      execution_plan_tips := []
      syntax_errors := some (checkSyntax text) }

/-! ### Frontend, translated from the TypeScript sources -/

/-- Score-to-level mapping of OptimizationResults.tsx (getComplexityLevel,
lines 37-42): the pair is (level, color). -/
def getComplexityLevel (score : Int) : String × String :=
  if score ≤ 20 then ("Simple", "green")
  else if score ≤ 40 then ("Moderate", "orange")
  else if score ≤ 70 then ("Complex", "red")
  else ("Very Complex", "darkred")

/-- Guard used throughout OptimizationResults.tsx:
result.syntax_errors && result.syntax_errors.length > 0. -/
def hasSyntaxErrors (r : AnalysisResult) : Bool :=
  match r.syntax_errors with
  | some es => !es.isEmpty
  | none => false

/-- Rendered state of the suggestions section of OptimizationResults.tsx
(lines 101-174): a blocking panel, the no-issues panel, or one card per
suggestion. -/
inductive SuggestionsView where
  | blocked
  | noIssues
  | cards (suggestions : List OptimizationSuggestion)
deriving DecidableEq, Repr

/-- Translation of the suggestions-section conditional rendering in
OptimizationResults.tsx: syntax errors present and non-empty renders the
Optimization Analysis Blocked panel; otherwise an empty suggestion list
renders the Great job panel; otherwise one card per suggestion. -/
def renderSuggestionsSection (r : AnalysisResult) : SuggestionsView :=
  if hasSyntaxErrors r then .blocked
  else if r.suggestions.isEmpty then .noIssues
  else .cards r.suggestions

/-- Rendered state of the summary-stats block of OptimizationResults.tsx
(lines 190-233): on syntax errors the stats show the error count, the
Analysis Status Blocked and the Action Required Fix Syntax items;
otherwise the total and per-severity suggestion counts. -/
inductive SummaryStats where
  | errorStats (syntaxErrorCount : Nat)
  | suggestionStats (total high medium low : Nat)
deriving DecidableEq, Repr

/-- Translation of the summary-stats conditional rendering in
OptimizationResults.tsx. -/
def renderSummaryStats (r : AnalysisResult) : SummaryStats :=
  if hasSyntaxErrors r then
    .errorStats ((r.syntax_errors.getD []).length)
  else
    .suggestionStats r.suggestions.length
      (r.suggestions.filter (fun s => s.severity == .high)).length
      (r.suggestions.filter (fun s => s.severity == .medium)).length
      (r.suggestions.filter (fun s => s.severity == .low)).length

/-- Outcome of the POST /analyze call as seen by handleSubmit: either a
parsed response body or a failure (no response or an error response,
optionally carrying a detail message). -/
inductive PostResponse where
  | success (result : AnalysisResult)
  | failure (detail : Option String)
deriving DecidableEq, Repr

/-- Observable effect of one handleSubmit invocation: the request issued
(if any), the result delivered to onAnalysisComplete (if any), and the
error message set (if any). -/
structure SubmitEffect where
  request : Option SQLQueryBody
  delivered : Option AnalysisResult
  errorMessage : Option String
deriving DecidableEq, Repr

/-- Translation of handleSubmit in the QueryInput component (App.tsx
lines 116-144): an empty trimmed query sets an error message and returns
without a request; otherwise the trimmed query and the selected database
type are posted, a successful response is delivered as-is, and a failed
request sets an error message and delivers a substitute result with the
trimmed query, the database type, no suggestions, score 0 and no tips. -/
def handleSubmit (query databaseType : String)
    (post : SQLQueryBody → PostResponse) : SubmitEffect :=
  if trimStr query == "" then
    { request := none, delivered := none,
      errorMessage := some "Please enter a SQL query" }
  else
    let body : SQLQueryBody :=
      { query := trimStr query, database_type := databaseType }
    match post body with
    | .success r =>
        { request := some body, delivered := some r, errorMessage := none }
    | .failure detail =>
        { request := some body
          delivered := some
            { query := trimStr query
              database_type := databaseType
              suggestions := []
              complexity_score := 0
              execution_plan_tips := []
              syntax_errors := none }
          errorMessage := some (detail.getD "Failed to analyze query") }

/-! ### Claim theorems -/

/-- C1: for every analysis result produced by analyze, if the list of
SyntaxErrors is non-empty then the list of Suggestions is empty. -/
theorem analyze_errors_suppress_suggestions (text dialect : String)
    (es : List String)
    (h1 : (analyze text dialect).syntax_errors = some es) (h2 : es ≠ []) :
    (analyze text dialect).suggestions = [] := by
  by_cases h : (checkSyntax text).isEmpty
  · simp [analyze, h] at h1
  · simp [analyze, h]

/-- C1 witness: the misspelled-keyword scenario input has a non-empty
SyntaxErrors list, and indeed no suggestions. -/
theorem analyze_errors_suppress_suggestions_witness :
    (analyze "selet * from users;" "mysql").suggestions = [] :=
  analyze_errors_suppress_suggestions "selet * from users;" "mysql"
    ["Unrecognized SQL statement keyword: SELET"] (by decide) (by decide)

/-- C2: whenever tokenization yields SyntaxErrors, analyze
short-circuits: the result carries exactly those errors, no suggestions,
complexity score 0 and no tips, independent of every rule. -/
theorem analyze_short_circuit (text dialect : String)
    (h : checkSyntax text ≠ []) :
    analyze text dialect =
      { query := text
        database_type := dialect
        suggestions := []
        complexity_score := 0
        execution_plan_tips := []
        syntax_errors := some (checkSyntax text) } := by
  cases hc : checkSyntax text with
  | nil => exact absurd hc h
  | cons a l => simp [analyze, hc]

/-- C2 witness: the short-circuit result at the misspelled-keyword
scenario input. -/
theorem analyze_short_circuit_witness :
    analyze "selet * from users;" "mysql" =
      { query := "selet * from users;"
        database_type := "mysql"
        suggestions := []
        complexity_score := 0
        execution_plan_tips := []
        syntax_errors := some (checkSyntax "selet * from users;") } :=
  analyze_short_circuit "selet * from users;" "mysql" (by decide)

/-- C3: for every syntactically valid input the complexity score is the
weighted occurrence sum — +2 per JOIN, +3 per subquery, +2 per UNION,
+1 per CASE, +1 for GROUP BY presence, +1 for ORDER BY presence, +2 for
HAVING presence, +1 per scalar function invocation — clamped to
[0, 100]. -/
theorem analyze_score_formula (text dialect : String)
    (h : checkSyntax text = []) :
    (analyze text dialect).complexity_score =
      min 100 (max 0
        (2 * (joinCountTok text : Int) + 3 * (subqueryCount text : Int) +
         2 * (unionCount text : Int) + (caseCount text : Int) +
         (if (buildFragments text).hasGroupBy then 1 else 0) +
         (if (buildFragments text).hasOrderBy then 1 else 0) +
         (if (buildFragments text).hasHaving then 2 else 0) +
         (functionCount text : Int))) := by
  have hIs : (checkSyntax text).isEmpty = true := by simp [h]
  simp only [analyze, hIs, if_true]
  unfold complexityScore scoreWeights
  simp only [List.sum_append, List.sum_replicate, nsmul_eq_mul]
  split_ifs <;> simp <;> ring

/-- C3 witness: the score formula evaluated at a concrete valid query. -/
theorem analyze_score_formula_witness :
    (analyze "SELECT id FROM users ORDER BY id" "mysql").complexity_score =
      min 100 (max 0
        (2 * (joinCountTok "SELECT id FROM users ORDER BY id" : Int) +
         3 * (subqueryCount "SELECT id FROM users ORDER BY id" : Int) +
         2 * (unionCount "SELECT id FROM users ORDER BY id" : Int) +
         (caseCount "SELECT id FROM users ORDER BY id" : Int) +
         (if (buildFragments "SELECT id FROM users ORDER BY id").hasGroupBy then 1 else 0) +
         (if (buildFragments "SELECT id FROM users ORDER BY id").hasOrderBy then 1 else 0) +
         (if (buildFragments "SELECT id FROM users ORDER BY id").hasHaving then 2 else 0) +
         (functionCount "SELECT id FROM users ORDER BY id" : Int))) :=
  analyze_score_formula "SELECT id FROM users ORDER BY id" "mysql" (by decide)

/-- C4: for every input, also malformed ones, the complexity score of
the returned AnalysisResult is an integer in [0, 100]. -/
theorem analyze_score_bounds (text dialect : String) :
    0 ≤ (analyze text dialect).complexity_score ∧
    (analyze text dialect).complexity_score ≤ 100 := by
  by_cases h : (checkSyntax text).isEmpty
  · simp only [analyze, h, if_true]
    unfold complexityScore
    exact ⟨le_min (by norm_num) (le_max_left 0 _), min_le_left _ _⟩
  · simp [analyze, h]

/-- C5: analyze is deterministic — two invocations at the same text and
dialect agree on the suggestion sequence, the complexity score and the
tip sequence. -/
theorem analyze_deterministic (text dialect : String)
    (r1 r2 : AnalysisResult)
    (h1 : r1 = analyze text dialect) (h2 : r2 = analyze text dialect) :
    r1.suggestions = r2.suggestions ∧
    r1.complexity_score = r2.complexity_score ∧
    r1.execution_plan_tips = r2.execution_plan_tips := by
  subst h1; subst h2; exact ⟨rfl, rfl, rfl⟩

/-- C5 witness: two invocations at a concrete input agree. -/
theorem analyze_deterministic_witness :
    (analyze "SELECT id FROM users" "mysql").suggestions =
      (analyze "SELECT id FROM users" "mysql").suggestions ∧
    (analyze "SELECT id FROM users" "mysql").complexity_score =
      (analyze "SELECT id FROM users" "mysql").complexity_score ∧
    (analyze "SELECT id FROM users" "mysql").execution_plan_tips =
      (analyze "SELECT id FROM users" "mysql").execution_plan_tips :=
  analyze_deterministic "SELECT id FROM users" "mysql"
    (analyze "SELECT id FROM users" "mysql")
    (analyze "SELECT id FROM users" "mysql") rfl rfl

/-- C6: on the literal scenario input the result has no syntax errors
and its suggestions include the High-severity non-SARGable item and the
Medium-severity select-star item. -/
theorem analyze_scenario_one :
    (analyze "SELECT * FROM users WHERE UPPER(name) = 'JOHN'" "mysql").syntax_errors
      = none ∧
    nonSargableSuggestion ∈
      (analyze "SELECT * FROM users WHERE UPPER(name) = 'JOHN'" "mysql").suggestions ∧
    nonSargableSuggestion.severity = Severity.high ∧
    selectStarSuggestion ∈
      (analyze "SELECT * FROM users WHERE UPPER(name) = 'JOHN'" "mysql").suggestions ∧
    selectStarSuggestion.severity = Severity.medium := by
  decide

/-- C7: the collaborator maps every score in [0, 100] to the reference
levels — Simple up to 20, Moderate for 21 to 40, Complex for 41 to 70,
Very Complex for 71 to 100. -/
theorem getComplexityLevel_matches_reference (s : Int)
    (h0 : 0 ≤ s) (h100 : s ≤ 100) :
    (s ≤ 20 → (getComplexityLevel s).1 = "Simple") ∧
    (21 ≤ s → s ≤ 40 → (getComplexityLevel s).1 = "Moderate") ∧
    (41 ≤ s → s ≤ 70 → (getComplexityLevel s).1 = "Complex") ∧
    (71 ≤ s → s ≤ 100 → (getComplexityLevel s).1 = "Very Complex") := by
  unfold getComplexityLevel
  refine ⟨?_, ?_, ?_, ?_⟩ <;> intros <;> split_ifs <;> first | rfl | omega

/-- C7 witness: a score of 50 is displayed as Complex. -/
theorem getComplexityLevel_matches_reference_witness :
    (getComplexityLevel 50).1 = "Complex" :=
  ((getComplexityLevel_matches_reference 50 (by norm_num) (by norm_num)).2.2.1
    (by norm_num) (by norm_num))

/-- C8: handleSubmit validates non-emptiness before calling the engine —
an empty trimmed query sets an error message and issues no request, and
a non-empty trimmed query issues a request whose body carries the
trimmed query text. -/
theorem handleSubmit_validates (query databaseType : String)
    (post : SQLQueryBody → PostResponse) :
    (trimStr query = "" →
      (handleSubmit query databaseType post).request = none ∧
      (handleSubmit query databaseType post).errorMessage =
        some "Please enter a SQL query") ∧
    (trimStr query ≠ "" →
      (handleSubmit query databaseType post).request =
        some { query := trimStr query, database_type := databaseType }) := by
  constructor
  · intro h
    simp [handleSubmit, h]
  · intro h
    have hb : (trimStr query == "") = false := by
      simpa using h
    cases hp : post { query := trimStr query, database_type := databaseType } <;>
      simp [handleSubmit, hb, hp]

/-- C8 witness: a non-empty query is posted trimmed. -/
theorem handleSubmit_validates_witness :
    (handleSubmit " SELECT 1 " "mysql"
        (fun _ => PostResponse.failure none)).request =
      some { query := trimStr " SELECT 1 ", database_type := "mysql" } :=
  (handleSubmit_validates " SELECT 1 " "mysql"
    (fun _ => PostResponse.failure none)).2 (by decide)

/-- C9: when the analyze request fails, handleSubmit delivers a
substitute AnalysisResult with the trimmed query, the selected database
type, no suggestions, score 0 and no tips — indistinguishable from a
clean score-0 result. -/
theorem handleSubmit_failure_substitute (query databaseType : String)
    (detail : Option String) (post : SQLQueryBody → PostResponse)
    (hne : trimStr query ≠ "")
    (hfail : post { query := trimStr query, database_type := databaseType } =
      PostResponse.failure detail) :
    (handleSubmit query databaseType post).delivered =
      some { query := trimStr query
             database_type := databaseType
             suggestions := []
             complexity_score := 0
             execution_plan_tips := []
             syntax_errors := none } := by
  have hb : (trimStr query == "") = false := by simpa using hne
  simp [handleSubmit, hb, hfail]

/-- C9 witness: the substitute result at a concrete failed request. -/
theorem handleSubmit_failure_substitute_witness :
    (handleSubmit " SELECT 1 " "mysql"
        (fun _ => PostResponse.failure none)).delivered =
      some { query := trimStr " SELECT 1 "
             database_type := "mysql"
             suggestions := []
             complexity_score := 0
             execution_plan_tips := []
             syntax_errors := none } :=
  handleSubmit_failure_substitute " SELECT 1 " "mysql" none
    (fun _ => PostResponse.failure none) (by decide) rfl

/-- C10: for every result whose syntax_errors field is present and
non-empty the rendered view shows the blocking panel instead of
suggestion cards and the summary reports the analysis as blocked,
whatever the suggestions list contains. -/
theorem render_blocks_on_syntax_errors (r : AnalysisResult)
    (es : List String) (h1 : r.syntax_errors = some es) (h2 : es ≠ []) :
    renderSuggestionsSection r = SuggestionsView.blocked ∧
    renderSummaryStats r = SummaryStats.errorStats es.length := by
  have hb : hasSyntaxErrors r = true := by
    cases es with
    | nil => exact absurd rfl h2
    | cons a l => simp [hasSyntaxErrors, h1]
  exact ⟨by simp [renderSuggestionsSection, hb],
         by simp [renderSummaryStats, hb, h1]⟩

/-- C10 witness: a result that violates error/suggestion exclusivity —
one syntax error and one suggestion — still renders as blocked. -/
theorem render_blocks_on_syntax_errors_witness :
    renderSuggestionsSection
      { query := "q", database_type := "mysql",
        suggestions := [selectStarSuggestion], complexity_score := 5,
        execution_plan_tips := [],
        syntax_errors := some ["Unbalanced parentheses in query"] } =
      SuggestionsView.blocked ∧
    renderSummaryStats
      { query := "q", database_type := "mysql",
        suggestions := [selectStarSuggestion], complexity_score := 5,
        execution_plan_tips := [],
        syntax_errors := some ["Unbalanced parentheses in query"] } =
      SummaryStats.errorStats 1 :=
  render_blocks_on_syntax_errors
    { query := "q", database_type := "mysql",
      suggestions := [selectStarSuggestion], complexity_score := 5,
      execution_plan_tips := [],
      syntax_errors := some ["Unbalanced parentheses in query"] }
    ["Unbalanced parentheses in query"] rfl (by decide)

end SqlOpt
